import Mathlib

/-!
Shallow embedding of the qianli browser-automation core (src/qianli/cli.py)
and of the MediaCrawler wrapper (src/qianli/mc.py), together with theorems
settling the specification claims about them.

The code under verification talks to an external browser over a JSON-RPC
WebSocket protocol.  Every interaction with the outside world (HTTP tab
listing, WebSocket connect, message receive, subprocess run) is a hole
filled by an explicit environment value, so each run of the embedded code
is a pure function of its environment.  Machine behaviour (Python
truthiness, dict lookup, exception propagation through try/finally) is
translated directly from the source.
-/

namespace Qianli

/-- JSON values, as decoded by the Python json module: dicts become
association lists (insertion order, unique keys). -/
inductive Value where
  | null : Value
  | bool (b : Bool) : Value
  | num (n : Int) : Value
  | str (s : String) : Value
  | arr (elems : List Value) : Value
  | obj (fields : List (String × Value)) : Value
deriving Repr

mutual

/-- Structural equality on JSON values, Python == on decoded values. -/
def vbeq : Value → Value → Bool
  | .null, .null => true
  | .bool a, .bool b => a == b
  | .num a, .num b => a == b
  | .str a, .str b => a == b
  | .arr a, .arr b => vbeqArr a b
  | .obj a, .obj b => vbeqObj a b
  | _, _ => false

def vbeqArr : List Value → List Value → Bool
  | [], [] => true
  | x :: xs, y :: ys => vbeq x y && vbeqArr xs ys
  | _, _ => false

def vbeqObj : List (String × Value) → List (String × Value) → Bool
  | [], [] => true
  | (k, x) :: xs, (l, y) :: ys => k == l && vbeq x y && vbeqObj xs ys
  | _, _ => false

end

/-- Python dict lookup on the field list of a JSON object. -/
def lookupField : List (String × Value) → String → Option Value
  | [], _ => none
  | (k, v) :: rest, key => if k = key then some v else lookupField rest key

/-- Python d.get(key): some value when present, none (Python None) when
absent.  The messages and tab descriptors this is applied to are always
JSON objects; on a non-object it yields none. -/
def vget : Value → String → Option Value
  | .obj fields, key => lookupField fields key
  | _, _ => none

/-- Python d.get(key, default-empty-dict). -/
def vgetD (v : Value) (key : String) : Value :=
  (vget v key).getD (.obj [])

/-- Python truthiness of a decoded JSON value. -/
def truthyV : Value → Bool
  | .null => false
  | .bool b => b
  | .num n => n != 0
  | .str s => s != ""
  | .arr elems => !elems.isEmpty
  | .obj fields => !fields.isEmpty

/-- Python truthiness of an optional value (none is Python None, falsy). -/
def truthyO : Option Value → Bool
  | none => false
  | some v => truthyV v

/-- Python == between an optional lookup result and a value: an absent key
gives Python None, which equals exactly the value None (JSON null). -/
def pyEqOpt (o : Option Value) (v : Value) : Bool :=
  vbeq (o.getD .null) v

/-- Exceptions that can cross the embedded code. -/
inductive Err where
  | connError : Err
  | timeoutError : Err
  | keyError : Err
  | httpError : Err
  | jsonDecodeError : Err
  | typeError : Err
deriving Repr, DecidableEq

/-! ## Protocol transport (cli.py: evaluate / create_tab / close_tab)

Each call opens a fresh WebSocket connection, sends one request with the
fixed correlation id 1, and reads incoming messages.  The environment of
one call supplies the connect outcome, the (already JSON-decoded) messages
delivered before a receive timeout ends the stream, and the wall-clock
duration spent waiting on the connection. -/

/-- Receive loop of evaluate (cli.py lines 101-111): skip every message
whose id field is not 1; on the matching message take
data.get("result", empty).get("result", empty) and return its "value"
entry when present, Python None otherwise.  Exhausting the stream is the
receive timeout, which evaluate catches and turns into None. -/
def evalPayload (m : Value) : Option Value :=
  vget (vgetD (vgetD m "result") "result") "value"

def evalRecvLoop : List Value → Option Value
  | [] => none
  | m :: rest =>
    if pyEqOpt (vget m "id") (.num 1) then evalPayload m
    else evalRecvLoop rest

/-- Environment of one evaluate call: some err when resolving the page
endpoint or opening the WebSocket raises, otherwise the delivered
messages; dur is the time spent waiting on the connection. -/
structure EvalEnv where
  conn : Option Err
  msgs : List Value
  dur : Nat

/-- The evaluate helper (cli.py lines 87-111).  A connect failure raises;
otherwise the receive loop runs and a receive timeout yields None. -/
def evaluate (e : EvalEnv) : Except Err (Option Value) :=
  match e.conn with
  | some err => .error err
  | none => .ok (evalRecvLoop e.msgs)

/-- Receive loop of create_tab (cli.py lines 59-63): skip non-matching
messages; on the matching one index data["result"]["targetId"] (a missing
key raises KeyError).  A receive timeout is NOT caught here: the
wait_for TimeoutError propagates. -/
def createRecvLoop : List Value → Except Err Value
  | [] => .error .timeoutError
  | m :: rest =>
    if pyEqOpt (vget m "id") (.num 1) then
      match vget m "result" with
      | some r =>
        match vget r "targetId" with
        | some tid => .ok tid
        | none => .error .keyError
      | none => .error .keyError
    else createRecvLoop rest

/-- Environment of the create_tab call. -/
structure CreateEnv where
  conn : Option Err
  msgs : List Value
  dur : Nat

/-- The create_tab helper (cli.py lines 44-63): browser endpoint lookup or
connect failure raises, otherwise the receive loop decides the outcome. -/
def createTab (e : CreateEnv) : Except Err Value :=
  match e.conn with
  | some err => .error err
  | none => createRecvLoop e.msgs

/-- Outcome of the single receive inside close_tab. -/
inductive RecvOutcome where
  | timeout : RecvOutcome
  | msg (v : Value) : RecvOutcome
  | err (e : Err) : RecvOutcome

/-- Environment of the close_tab call. -/
structure CloseEnv where
  conn : Option Err
  recv : RecvOutcome
  dur : Nat

/-- The close_tab helper (cli.py lines 66-84): a connect failure raises;
the response receive swallows a TimeoutError (lines 81-84) but any other
receive failure propagates. -/
def closeTab (e : CloseEnv) : Except Err Unit :=
  match e.conn with
  | some err => .error err
  | none =>
    match e.recv with
    | .timeout => .ok ()
    | .msg _ => .ok ()
    | .err er => .error er

/-! ## Extraction poller (cli.py: open_and_extract, lines 114-157) -/

/-- Timing and shape parameters of one extraction request.  hasReadyCheck
reflects the Python truthiness of the optional ready_check expression. -/
structure Params where
  waitSecs : Nat
  maxWait : Nat
  hasReadyCheck : Bool

/-- Environment of one whole extraction operation.  tabs gives the outcome
of the i-th get_tabs HTTP fetch; ready and extractQ give, per call index,
the environment of the corresponding evaluate call; close drives the
single close_tab in the finally block; tabsDur is the time spent on the
i-th tab-list fetch. -/
structure PollEnv where
  create : CreateEnv
  tabs : Nat → Except Err (List Value)
  tabsDur : Nat → Nat
  ready : Nat → EvalEnv
  extractQ : Nat → EvalEnv
  close : CloseEnv

/-- What one run of the poll loop did, counted from the state it was
entered in: its outcome, the number of tab-list fetches, readiness
evaluations and extraction evaluations it performed, the sleep time and
the protocol-wait time it spent. -/
structure PollOut where
  res : Except Err (Option Value)
  dTab : Nat
  dReady : Nat
  dExt : Nat
  dSleep : Nat
  dProto : Nat
deriving Repr

/-- Python next((t for t in tabs if t.get("id") == target_id), None). -/
def findTab (tabs : List Value) (tid : Value) : Option Value :=
  tabs.find? (fun t => pyEqOpt (vget t "id") tid)

/-- The while loop of open_and_extract (cli.py lines 131-155), entered
with elapsed already advanced by the initial sleep.  tabN, readyN and
extN index the environment by how many calls of each kind happened
before this state.  The loop advances elapsed by the poll interval 2 on
every retry, so it terminates; the fuel argument only drives the
structural recursion and is chosen large enough by the caller (one unit
per iteration, and iterations are bounded by maxWait / 2 + 1).  On fuel
exhaustion the result equals the timeout outcome, but the theorems below
only use states whose fuel is sufficient. -/
def pollLoop (env : PollEnv) (p : Params) (tid : Value) :
    Nat → Nat → Nat → Nat → Nat → PollOut
  | 0, _, _, _, _ => ⟨.ok none, 0, 0, 0, 0, 0⟩
  | fuel + 1, elapsed, tabN, readyN, extN =>
    if elapsed < p.maxWait then
      match env.tabs tabN with
      | .error e => ⟨.error e, 1, 0, 0, 0, env.tabsDur tabN⟩
      | .ok tl =>
        match findTab tl tid with
        | none => ⟨.ok none, 1, 0, 0, 0, env.tabsDur tabN⟩
        | some tab =>
          if truthyV tab then
            match vget tab "webSocketDebuggerUrl" with
            | none => ⟨.error .keyError, 1, 0, 0, 0, env.tabsDur tabN⟩
            | some _ =>
              if p.hasReadyCheck then
                match evaluate (env.ready readyN) with
                | .error e =>
                  ⟨.error e, 1, 1, 0, 0,
                    env.tabsDur tabN + (env.ready readyN).dur⟩
                | .ok rv =>
                  if truthyO rv then
                    match evaluate (env.extractQ extN) with
                    | .error e =>
                      ⟨.error e, 1, 1, 1, 0,
                        env.tabsDur tabN + (env.ready readyN).dur
                          + (env.extractQ extN).dur⟩
                    | .ok ev =>
                      if truthyO ev then
                        ⟨.ok ev, 1, 1, 1, 0,
                          env.tabsDur tabN + (env.ready readyN).dur
                            + (env.extractQ extN).dur⟩
                      else
                        let rest := pollLoop env p tid fuel (elapsed + 2)
                          (tabN + 1) (readyN + 1) (extN + 1)
                        ⟨rest.res, rest.dTab + 1, rest.dReady + 1,
                          rest.dExt + 1, rest.dSleep + 2,
                          rest.dProto + env.tabsDur tabN
                            + (env.ready readyN).dur
                            + (env.extractQ extN).dur⟩
                  else
                    let rest := pollLoop env p tid fuel (elapsed + 2)
                      (tabN + 1) (readyN + 1) extN
                    ⟨rest.res, rest.dTab + 1, rest.dReady + 1, rest.dExt,
                      rest.dSleep + 2,
                      rest.dProto + env.tabsDur tabN
                        + (env.ready readyN).dur⟩
              else
                match evaluate (env.extractQ extN) with
                | .error e =>
                  ⟨.error e, 1, 0, 1, 0,
                    env.tabsDur tabN + (env.extractQ extN).dur⟩
                | .ok ev =>
                  if truthyO ev then
                    ⟨.ok ev, 1, 0, 1, 0,
                      env.tabsDur tabN + (env.extractQ extN).dur⟩
                  else
                    let rest := pollLoop env p tid fuel (elapsed + 2)
                      (tabN + 1) readyN (extN + 1)
                    ⟨rest.res, rest.dTab + 1, rest.dReady, rest.dExt + 1,
                      rest.dSleep + 2,
                      rest.dProto + env.tabsDur tabN
                        + (env.extractQ extN).dur⟩
          else
            -- Python: a falsy tab descriptor also takes the `if not tab`
            -- branch and returns None
            ⟨.ok none, 1, 0, 0, 0, env.tabsDur tabN⟩
    else ⟨.ok none, 0, 0, 0, 0, 0⟩

/-- The body of open_and_extract once the tab exists: initial sleep, then
the poll loop.  Fuel maxWait + 1 covers every reachable iteration. -/
def pollBody (env : PollEnv) (p : Params) (tid : Value) : PollOut :=
  pollLoop env p tid (p.maxWait + 1) p.waitSecs 0 0 0

/-- Result of a whole extraction operation: the value returned or the
exception raised, the number of calls of each kind, total sleep time and
total protocol-wait time.  closeCalls counts invocations of close_tab. -/
structure ExtractOut where
  res : Except Err (Option Value)
  tabCalls : Nat
  readyCalls : Nat
  extCalls : Nat
  closeCalls : Nat
  sleepT : Nat
  protoT : Nat
deriving Repr

/-- open_and_extract (cli.py lines 114-157).  A create_tab failure raises
before the try block: nothing is cleaned up.  Otherwise the loop body
runs under try/finally: close_tab is invoked exactly once, and per
Python semantics an exception raised by the finally block replaces the
outcome of the body. -/
def openAndExtract (env : PollEnv) (p : Params) : ExtractOut :=
  match createTab env.create with
  | .error e => ⟨.error e, 0, 0, 0, 0, 0, env.create.dur⟩
  | .ok tid =>
    let body := pollBody env p tid
    let res : Except Err (Option Value) :=
      match closeTab env.close with
      | .ok _ => body.res
      | .error e => .error e
    ⟨res, body.dTab, body.dReady, body.dExt, 1,
      p.waitSecs + body.dSleep,
      env.create.dur + body.dProto + env.close.dur⟩

/-! ## Model of Python json.loads on the JSON subset the code exchanges
(null, booleans, integers, escape-free strings, arrays, objects).  A
parse failure models the ValueError that json.loads raises. -/

def isWsChar (c : Char) : Bool :=
  c = ' ' || c = '\n' || c = '\t' || c = '\r'

def skipWs : List Char → List Char
  | [] => []
  | c :: cs => if isWsChar c then skipWs cs else c :: cs

def isDigitChar (c : Char) : Bool :=
  '0' ≤ c && c ≤ '9'

def takeDigits : List Char → List Char × List Char
  | [] => ([], [])
  | c :: cs =>
    if isDigitChar c then
      let r := takeDigits cs
      (c :: r.1, r.2)
    else ([], c :: cs)

def digitsVal (ds : List Char) : Nat :=
  ds.foldl (fun a c => a * 10 + (c.toNat - 48)) 0

def takeStringChars : List Char → Option (List Char × List Char)
  | [] => none
  | c :: cs =>
    if c = '"' then some ([], cs)
    else if c = '\\' then none
    else
      match takeStringChars cs with
      | some (s, rest) => some (c :: s, rest)
      | none => none

mutual

def parseVal : Nat → List Char → Option (Value × List Char)
  | 0, _ => none
  | fuel + 1, cs =>
    match skipWs cs with
    | [] => none
    | c :: cs1 =>
      if c = 'n' then
        match cs1 with
        | 'u' :: 'l' :: 'l' :: rest => some (.null, rest)
        | _ => none
      else if c = 't' then
        match cs1 with
        | 'r' :: 'u' :: 'e' :: rest => some (.bool true, rest)
        | _ => none
      else if c = 'f' then
        match cs1 with
        | 'a' :: 'l' :: 's' :: 'e' :: rest => some (.bool false, rest)
        | _ => none
      else if c = '"' then
        match takeStringChars cs1 with
        | some (s, rest) => some (.str (String.mk s), rest)
        | none => none
      else if c = '-' then
        match takeDigits cs1 with
        | ([], _) => none
        | (ds, rest) => some (.num (-(digitsVal ds : Int)), rest)
      else if isDigitChar c then
        match takeDigits (c :: cs1) with
        | (ds, rest) => some (.num (digitsVal ds), rest)
      else if c = '[' then
        match skipWs cs1 with
        | ']' :: rest => some (.arr [], rest)
        | cs2 => parseArrItems fuel cs2 []
      else if c = '{' then
        match skipWs cs1 with
        | '}' :: rest => some (.obj [], rest)
        | cs2 => parseObjFields fuel cs2 []
      else none

def parseArrItems : Nat → List Char → List Value →
    Option (Value × List Char)
  | 0, _, _ => none
  | fuel + 1, cs, acc =>
    match parseVal fuel cs with
    | none => none
    | some (v, rest) =>
      match skipWs rest with
      | ',' :: rest2 => parseArrItems fuel rest2 (acc ++ [v])
      | ']' :: rest2 => some (.arr (acc ++ [v]), rest2)
      | _ => none

def parseObjFields : Nat → List Char → List (String × Value) →
    Option (Value × List Char)
  | 0, _, _ => none
  | fuel + 1, cs, acc =>
    match skipWs cs with
    | '"' :: cs1 =>
      match takeStringChars cs1 with
      | none => none
      | some (k, rest) =>
        match skipWs rest with
        | ':' :: rest2 =>
          match parseVal fuel rest2 with
          | none => none
          | some (v, rest3) =>
            match skipWs rest3 with
            | ',' :: rest4 =>
              parseObjFields fuel rest4 (acc ++ [(String.mk k, v)])
            | '}' :: rest4 => some (.obj (acc ++ [(String.mk k, v)]), rest4)
            | _ => none
        | _ => none
    | _ => none

end

/-- Python json.loads: parse one value, require only whitespace after it. -/
def jsonLoads (s : String) : Option Value :=
  match parseVal (s.length + 1) s.data with
  | some (v, rest) =>
    match skipWs rest with
    | [] => some v
    | _ => none
  | none => none

/-! ## Search-level caller (cli.py: search_wechat, lines 276-290) -/

/-- The request parameters search_wechat passes to open_and_extract. -/
def wechatParams : Params := ⟨4, 12, true⟩

/-- search_wechat: a falsy result from open_and_extract prints an error
and yields the empty list; a truthy result goes through json.loads (a
ValueError propagates to the caller; applying loads or the list slice to
a value of the wrong type raises TypeError) and is truncated to limit. -/
def searchWechat (env : PollEnv) (limit : Nat) : Except Err (List Value) :=
  let o := openAndExtract env wechatParams
  match o.res with
  | .error e => .error e
  | .ok r =>
    if truthyO r then
      match r with
      | some (.str s) =>
        match jsonLoads s with
        | some (.arr items) => .ok (items.take limit)
        | some _ => .error .typeError
        | none => .error .jsonDecodeError
      | _ => .error .typeError
    else .ok []

/-! ## MediaCrawler wrapper (mc.py: patch_max_notes and run_mc_search) -/

/-- Match the regex CRAWLER_MAX_NOTES_COUNT then whitespace, an equals
sign, whitespace and at least one digit at the start of a line, returning
the characters after the matched region. -/
def dropLiteral : List Char → List Char → Option (List Char)
  | [], cs => some cs
  | _, [] => none
  | p :: ps, c :: cs => if c = p then dropLiteral ps cs else none

def skipBlanks : List Char → List Char
  | [] => []
  | c :: cs => if c = ' ' || c = '\t' then skipBlanks cs else c :: cs

def matchMaxNotes (line : List Char) : Option (List Char) :=
  match dropLiteral "CRAWLER_MAX_NOTES_COUNT".data line with
  | none => none
  | some cs =>
    match skipBlanks cs with
    | '=' :: cs1 =>
      match takeDigits (skipBlanks cs1) with
      | ([], _) => none
      | (_, rest) => some rest
    | _ => none

/-- One line of the multiline re.sub in patch_max_notes (mc.py lines
43-48): when the anchored pattern matches, the matched region is replaced
by the new assignment and the rest of the line is kept. -/
def patchLine (limit : Nat) (line : String) : String :=
  match matchMaxNotes line.data with
  | some rest =>
    "CRAWLER_MAX_NOTES_COUNT = " ++ toString limit ++ String.mk rest
  | none => line

/-- patch_max_notes applied to the config text: the MULTILINE anchor makes
the pattern line-oriented, so substitute line by line. -/
def patchMaxNotes (limit : Nat) (text : String) : String :=
  String.intercalate "\n" ((text.splitOn "\n").map (patchLine limit))

/-- The external state run_mc_search touches: the content of the
MediaCrawler config file and whether the temporary output directory of
this invocation exists. -/
structure McWorld where
  config : String
  tmpDir : Bool
deriving Repr, DecidableEq

/-- Outcome of the MediaCrawler subprocess: an exit with a code and
optionally the content of the produced contents JSON file, a timeout
(subprocess.TimeoutExpired), or some other exception during the try
block. -/
inductive SubprocResult where
  | exit (code : Int) (producedJson : Option String) : SubprocResult
  | timeout : SubprocResult
  | raised : SubprocResult

/-- Environment of one run_mc_search invocation.  configReadFails models
read_text raising inside patch_max_notes, before the config is written. -/
structure McEnv where
  configReadFails : Bool
  subproc : SubprocResult

/-- run_mc_search (mc.py lines 124-201) as a transformer of the external
state.  The normalizers only shape the returned records and touch no
external state, so the returned items are kept in raw decoded form.
Removal of the temporary directory (shutil.rmtree, ignore_errors) is
modelled as succeeding. -/
def runMcSearch (env : McEnv) (limit : Nat) (w : McWorld) :
    Except Err (List Value) × McWorld :=
  -- tempfile.mkdtemp creates the output directory
  let w1 : McWorld := { w with tmpDir := true }
  if env.configReadFails then
    -- patch_max_notes raised before writing: original_config stays None,
    -- except Exception returns [], finally only removes the directory
    (.ok [], { w1 with tmpDir := false })
  else
    let original := w1.config
    let w2 : McWorld := { w1 with config := patchMaxNotes limit w1.config }
    let res : Except Err (List Value) :=
      match env.subproc with
      | .timeout => .ok []
      | .raised => .ok []
      | .exit code producedJson =>
        if code ≠ 0 then .ok []
        else
          match producedJson with
          | none => .ok []
          | some s =>
            match jsonLoads s with
            | none => .ok []   -- json.loads raised, caught by except
            | some (.arr items) => .ok (items.take limit)
            | some v => .ok ([v].take limit)  -- non-list wrapped in [items]
    -- finally: restore the config text read before patching, remove dir
    (res, { w2 with config := original, tmpDir := false })

/-! ## Concrete environments used as inputs of witnesses and
counterexamples -/

/-- A tab descriptor carrying the given target id and a page WebSocket
URL, as served by GET /json. -/
def tabObj (tid : String) : Value :=
  .obj [("id", .str tid), ("webSocketDebuggerUrl", .str "ws://page")]

/-- A response to Runtime.evaluate: id 1 and result.result.value = v. -/
def okMsg (v : Value) : Value :=
  .obj [("id", .num 1), ("result", .obj [("result", .obj [("value", v)])])]

/-- An unrelated protocol notification without the matching id. -/
def noiseMsg : Value :=
  .obj [("method", .str "Target.targetInfoChanged")]

/-- A response to Target.createTarget carrying the new target id. -/
def createOkMsg (tid : String) : Value :=
  .obj [("id", .num 1), ("result", .obj [("targetId", .str tid)])]

/-- An evaluate call that answers immediately with value v. -/
def evalRet (v : Value) : EvalEnv := ⟨none, [okMsg v], 0⟩

/-- An evaluate call whose receive times out after d time units. -/
def evalTimedOut (d : Nat) : EvalEnv := ⟨none, [], d⟩

/-- A close_tab call that completes (its response receive times out and
is swallowed). -/
def closeOk : CloseEnv := ⟨none, .timeout, 0⟩

/-- A well-behaved environment: tab creation succeeds with id T, the tab
stays listed, readiness answers true at once and the extractor answers
the serialized empty list on every attempt. -/
def envBase : PollEnv where
  create := ⟨none, [createOkMsg "T"], 0⟩
  tabs := fun _ => .ok [tabObj "T"]
  tabsDur := fun _ => 0
  ready := fun _ => evalRet (.bool true)
  extractQ := fun _ => evalRet (.str "[]")
  close := closeOk

/-- The timing parameters of the end-to-end scenario claims. -/
def cp12 : Params := ⟨4, 12, true⟩

/-- An environment whose tab creation fails with a connection error. -/
def envCreateFail : PollEnv :=
  { envBase with create := ⟨some .connError, [], 0⟩ }

/-! ## Claim theorems -/

/-- C1: if createTarget succeeds, open_and_extract issues exactly one
closeTarget call on every exit path (whatever the environment makes the
body do: success, empty result, vanished target, timeout exhaustion or an
exception raised inside the loop), and if createTarget fails, it returns
that failure and issues zero closeTarget calls. -/
theorem c1_target_lifecycle (env : PollEnv) (p : Params) :
    (∀ e, createTab env.create = .error e →
      (openAndExtract env p).res = .error e ∧
      (openAndExtract env p).closeCalls = 0) ∧
    (∀ tid, createTab env.create = .ok tid →
      (openAndExtract env p).closeCalls = 1) := by
  constructor
  · intro e h
    simp [openAndExtract, h]
  · intro tid h
    simp [openAndExtract, h]

theorem c1_target_lifecycle_witness :
    ((openAndExtract envCreateFail cp12).res = .error .connError ∧
      (openAndExtract envCreateFail cp12).closeCalls = 0) ∧
    (openAndExtract envBase cp12).closeCalls = 1 := by
  refine ⟨(c1_target_lifecycle envCreateFail cp12).1 .connError rfl, ?_⟩
  exact (c1_target_lifecycle envBase cp12).2 (.str "T") rfl

/-- C5: in both receive loops, only a message whose id field equals the
fixed correlation id 1 resolves the call; any other message is skipped
and reading continues; exhausting the stream (the receive timeout with no
matching response) yields None in evaluate and raises TimeoutError in
create_tab. -/
theorem c5_correlation_filter (m : Value) (rest : List Value) :
    (pyEqOpt (vget m "id") (.num 1) = false →
      evalRecvLoop (m :: rest) = evalRecvLoop rest ∧
      createRecvLoop (m :: rest) = createRecvLoop rest) ∧
    (pyEqOpt (vget m "id") (.num 1) = true →
      evalRecvLoop (m :: rest) = evalPayload m) ∧
    evalRecvLoop [] = none ∧
    createRecvLoop [] = .error .timeoutError := by
  refine ⟨fun h => ?_, fun h => ?_, rfl, rfl⟩
  · constructor <;> simp [evalRecvLoop, createRecvLoop, h]
  · simp [evalRecvLoop, h]

theorem c5_correlation_filter_witness :
    evalRecvLoop [noiseMsg, okMsg (.num 7)] = some (.num 7) ∧
    evalRecvLoop [] = none := by
  have h1 := (c5_correlation_filter noiseMsg [okMsg (.num 7)]).1 rfl
  have h2 := (c5_correlation_filter (okMsg (.num 7)) []).2.1 rfl
  exact ⟨h1.1.trans h2, (c5_correlation_filter noiseMsg []).2.2.1⟩

/-- C10: on every exit path of run_mc_search (config read failure,
subprocess exit of either sign, subprocess timeout, any other exception,
or success), the final external state has the config file holding exactly
its original text and the temporary output directory removed; the world
holds no other modified state. -/
theorem c10_frame_restored (env : McEnv) (limit : Nat) (w : McWorld) :
    (runMcSearch env limit w).2 = ⟨w.config, false⟩ := by
  unfold runMcSearch
  cases h : env.configReadFails <;> simp

/-- C2 counterexample: in the scenario with initialWait 4, pollInterval 2,
maxWait 12, readiness immediately true and the extraction query answering
the serialized empty list on every attempt, open_and_extract does NOT
return nothing after 4 attempts: the string of two brackets is a
non-empty, hence truthy, Python string, so it is returned as a successful
result on the very first extraction attempt. -/
theorem c2_counterexample :
    (openAndExtract envBase cp12).res = .ok (some (.str "[]")) ∧
    (openAndExtract envBase cp12).extCalls = 1 ∧
    ¬((openAndExtract envBase cp12).res = .ok none ∧
      (openAndExtract envBase cp12).extCalls = 4) :=
  ⟨rfl, rfl, fun h => absurd h.2 (by decide)⟩

/-- C2 amended: in that scenario the operation performs exactly one
readiness evaluation and one extraction evaluation, returns the
serialized empty list as a successful value at elapsed 4, and cleans up;
the search-level caller then decodes it and hands the empty list on. -/
theorem c2_amended :
    (openAndExtract envBase cp12).res = .ok (some (.str "[]")) ∧
    (openAndExtract envBase cp12).readyCalls = 1 ∧
    (openAndExtract envBase cp12).extCalls = 1 ∧
    (openAndExtract envBase cp12).closeCalls = 1 ∧
    (openAndExtract envBase cp12).sleepT = 4 ∧
    searchWechat envBase 5 = .ok [] :=
  ⟨rfl, rfl, rfl, rfl, rfl, rfl⟩

/-- An environment identical to the base one except that close_tab cannot
open its connection to the browser endpoint. -/
def envCloseConnFail : PollEnv :=
  { envBase with
      extractQ := fun _ => evalRet (.str "data")
      close := ⟨some .connError, .timeout, 0⟩ }

/-- The same environment with a working close. -/
def envCloseConnOk : PollEnv :=
  { envCloseConnFail with close := closeOk }

/-- C6 counterexample: the CLEANUP step does NOT ignore all of
closeTarget failures.  With identical extraction behaviour (a successful
extraction of a value), a connection failure inside close_tab escapes the
finally block and replaces the successful outcome with an exception,
masking the result of the operation it was cleaning up after. -/
theorem c6_counterexample :
    (pollBody envCloseConnFail cp12 (.str "T")).res =
      .ok (some (.str "data")) ∧
    (openAndExtract envCloseConnFail cp12).res = .error .connError ∧
    (openAndExtract envCloseConnOk cp12).res = .ok (some (.str "data")) :=
  ⟨rfl, rfl, rfl⟩

/-- C6 amended: close_tab swallows a response timeout (so a timed-out
close reply never escalates), and whenever close_tab itself completes the
cleanup step preserves the outcome of the body; but a close_tab failure
other than the response timeout (a connect failure) propagates out of the
finally block and replaces the outcome. -/
theorem c6_amended (env : PollEnv) (p : Params) (d : Nat) :
    closeTab ⟨none, .timeout, d⟩ = .ok () ∧
    (∀ tid, createTab env.create = .ok tid → closeTab env.close = .ok () →
      (openAndExtract env p).res = (pollBody env p tid).res) ∧
    (∀ e tid, createTab env.create = .ok tid → env.close.conn = some e →
      (openAndExtract env p).res = .error e) := by
  refine ⟨rfl, fun tid hc hcl => ?_, fun e tid hc hcl => ?_⟩
  · simp [openAndExtract, hc, hcl]
  · simp [openAndExtract, hc, closeTab, hcl]

theorem c6_amended_witness :
    closeTab ⟨none, .timeout, 3⟩ = .ok () ∧
    (openAndExtract envBase cp12).res = (pollBody envBase cp12 (.str "T")).res ∧
    (openAndExtract envCloseConnFail cp12).res = .error .connError := by
  refine ⟨(c6_amended envBase cp12 3).1, ?_, ?_⟩
  · exact (c6_amended envBase cp12 3).2.1 (.str "T") rfl rfl
  · exact (c6_amended envCloseConnFail cp12 3).2.2 .connError (.str "T") rfl rfl

/-- An environment in which the extraction query answers the given string
on every attempt. -/
def envStr (s : String) : PollEnv :=
  { envBase with extractQ := fun _ => evalRet (.str s) }

/-- C7 counterexample: when the page-side query returns a value that is
not valid structured data (here a truthy string that json.loads rejects),
the operation does NOT retry within the poll budget: it returns the
malformed value as a success on the first extraction attempt, and the
search-level caller then surfaces a decode error. -/
theorem c7_counterexample :
    jsonLoads "oops" = none ∧
    (openAndExtract (envStr "oops") wechatParams).res =
      .ok (some (.str "oops")) ∧
    (openAndExtract (envStr "oops") wechatParams).extCalls = 1 ∧
    searchWechat (envStr "oops") 5 = .error .jsonDecodeError :=
  ⟨rfl, rfl, rfl, rfl⟩

/-- One loop iteration in which the tab is listed, readiness is truthy
and the extraction result is truthy: the loop ends at once with that
result, one call of each kind. -/
theorem pollLoop_step_success (env : PollEnv) (p : Params) (tid : Value)
    (fuel elapsed tabN readyN extN : Nat) (l : List Value) (tab : Value)
    (hg : elapsed < p.maxWait) (ht : env.tabs tabN = .ok l)
    (hf : findTab l tid = some tab) (htr : truthyV tab = true)
    (hw : (vget tab "webSocketDebuggerUrl").isSome = true)
    (hrc : p.hasReadyCheck = true)
    (rv : Option Value) (hr : evaluate (env.ready readyN) = .ok rv)
    (hrt : truthyO rv = true)
    (ev : Option Value) (he : evaluate (env.extractQ extN) = .ok ev)
    (het : truthyO ev = true) :
    pollLoop env p tid (fuel + 1) elapsed tabN readyN extN =
      ⟨.ok ev, 1, 1, 1, 0,
        env.tabsDur tabN + (env.ready readyN).dur
          + (env.extractQ extN).dur⟩ := by
  obtain ⟨u, hu⟩ := Option.isSome_iff_exists.mp hw
  simp [pollLoop, hg, ht, hf, htr, hu, hrc, hr, hrt, he, het]

/-- One loop iteration in which the tab is listed but readiness evaluates
falsy: the iteration sleeps the poll interval and retries, adding one tab
fetch and one readiness evaluation. -/
theorem pollLoop_step_notReady (env : PollEnv) (p : Params) (tid : Value)
    (fuel elapsed tabN readyN extN : Nat) (l : List Value) (tab : Value)
    (hg : elapsed < p.maxWait) (ht : env.tabs tabN = .ok l)
    (hf : findTab l tid = some tab) (htr : truthyV tab = true)
    (hw : (vget tab "webSocketDebuggerUrl").isSome = true)
    (hrc : p.hasReadyCheck = true)
    (rv : Option Value) (hr : evaluate (env.ready readyN) = .ok rv)
    (hrt : truthyO rv = false) :
    pollLoop env p tid (fuel + 1) elapsed tabN readyN extN =
      (let rest := pollLoop env p tid fuel (elapsed + 2)
        (tabN + 1) (readyN + 1) extN
       ⟨rest.res, rest.dTab + 1, rest.dReady + 1, rest.dExt,
         rest.dSleep + 2,
         rest.dProto + env.tabsDur tabN + (env.ready readyN).dur⟩) := by
  obtain ⟨u, hu⟩ := Option.isSome_iff_exists.mp hw
  simp [pollLoop, hg, ht, hf, htr, hu, hrc, hr, hrt]

/-- C3: if at any poll iteration the tab list does not contain the
created target, the loop returns None at once, performing no further
readiness or extraction evaluation; at the operation level this is a
clean empty result followed by the cleanup call, not an error. -/
theorem c3_vanished_target (env : PollEnv) (p : Params) (tid : Value) :
    (∀ fuel elapsed tabN readyN extN l,
      elapsed < p.maxWait → env.tabs tabN = .ok l → findTab l tid = none →
      pollLoop env p tid (fuel + 1) elapsed tabN readyN extN =
        ⟨.ok none, 1, 0, 0, 0, env.tabsDur tabN⟩) ∧
    (∀ l, createTab env.create = .ok tid → closeTab env.close = .ok () →
      p.waitSecs < p.maxWait → env.tabs 0 = .ok l → findTab l tid = none →
      (openAndExtract env p).res = .ok none ∧
      (openAndExtract env p).readyCalls = 0 ∧
      (openAndExtract env p).extCalls = 0 ∧
      (openAndExtract env p).closeCalls = 1) := by
  have part1 : ∀ fuel elapsed tabN readyN extN l,
      elapsed < p.maxWait → env.tabs tabN = .ok l → findTab l tid = none →
      pollLoop env p tid (fuel + 1) elapsed tabN readyN extN =
        ⟨.ok none, 1, 0, 0, 0, env.tabsDur tabN⟩ := by
    intro fuel elapsed tabN readyN extN l hg ht hf
    simp [pollLoop, hg, ht, hf]
  refine ⟨part1, fun l hc hcl hg ht hf => ?_⟩
  have hb : pollBody env p tid = ⟨.ok none, 1, 0, 0, 0, env.tabsDur 0⟩ :=
    part1 p.maxWait p.waitSecs 0 0 0 l hg ht hf
  simp [openAndExtract, hc, hcl, hb]

/-- An environment in which the created target never appears in the tab
list (closed externally right after creation). -/
def envVanished : PollEnv := { envBase with tabs := fun _ => .ok [] }

theorem c3_vanished_target_witness :
    pollLoop envVanished cp12 (.str "T") 13 4 0 0 0 =
      ⟨.ok none, 1, 0, 0, 0, 0⟩ ∧
    ((openAndExtract envVanished cp12).res = .ok none ∧
      (openAndExtract envVanished cp12).readyCalls = 0 ∧
      (openAndExtract envVanished cp12).extCalls = 0 ∧
      (openAndExtract envVanished cp12).closeCalls = 1) := by
  have h := c3_vanished_target envVanished cp12 (.str "T")
  exact ⟨h.1 12 4 0 0 0 [] (by decide) rfl rfl,
    h.2 [] rfl rfl (by decide) rfl rfl⟩

/-- C7 amended: only a falsy extraction result is treated as not ready
yet and retried; a truthy value that is not valid structured data ends
the operation as a success on its first extraction attempt, and the
search-level caller then raises a decode error instead of retrying. -/
theorem c7_amended (s : String) (hne : s ≠ "") (hbad : jsonLoads s = none) :
    (openAndExtract (envStr s) wechatParams).res = .ok (some (.str s)) ∧
    (openAndExtract (envStr s) wechatParams).extCalls = 1 ∧
    searchWechat (envStr s) 5 = .error .jsonDecodeError := by
  have hst : truthyO (some (.str s)) = true := by
    simp [truthyO, truthyV, hne]
  have hbody : pollBody (envStr s) wechatParams (.str "T") =
      ⟨.ok (some (.str s)), 1, 1, 1, 0, 0⟩ :=
    pollLoop_step_success (envStr s) wechatParams (.str "T")
      12 4 0 0 0 [tabObj "T"] (tabObj "T") (by decide) rfl rfl rfl rfl rfl
      (some (.bool true)) rfl rfl (some (.str s)) rfl hst
  have hc : createTab (envStr s).create = .ok (.str "T") := rfl
  have hcl : closeTab (envStr s).close = .ok () := rfl
  have hres : (openAndExtract (envStr s) wechatParams).res =
      .ok (some (.str s)) := by
    simp [openAndExtract, hc, hcl, hbody]
  refine ⟨hres, ?_, ?_⟩
  · simp [openAndExtract, hc, hbody]
  · simp [searchWechat, hres, hst, hbad]

theorem c7_amended_witness :
    (openAndExtract (envStr "nope") wechatParams).res =
      .ok (some (.str "nope")) ∧
    (openAndExtract (envStr "nope") wechatParams).extCalls = 1 ∧
    searchWechat (envStr "nope") 5 = .error .jsonDecodeError :=
  c7_amended "nope" (by decide) rfl

/-- The i-th tab-list fetch succeeds and lists the created target with a
truthy descriptor carrying a page WebSocket URL. -/
def goodTabAt (env : PollEnv) (tid : Value) (i : Nat) : Prop :=
  ∃ l tab, env.tabs i = .ok l ∧ findTab l tid = some tab ∧
    truthyV tab = true ∧ (vget tab "webSocketDebuggerUrl").isSome = true

/-- Counting lemma behind C4: from a state with k falsy readiness answers
followed by a truthy one and a truthy first extraction, the loop performs
exactly k + 1 readiness evaluations and one extraction evaluation and
returns the extracted value. -/
theorem pollLoop_ready_counts (env : PollEnv) (p : Params) (tid : Value)
    (hrc : p.hasReadyCheck = true) :
    ∀ k fuel elapsed tabN readyN extN,
      elapsed + 2 * k < p.maxWait →
      k < fuel →
      (∀ i, i ≤ k → goodTabAt env tid (tabN + i)) →
      (∀ i, i < k → ∃ rv, evaluate (env.ready (readyN + i)) = .ok rv ∧
        truthyO rv = false) →
      (∃ rv, evaluate (env.ready (readyN + k)) = .ok rv ∧
        truthyO rv = true) →
      ∀ ev, evaluate (env.extractQ extN) = .ok ev → truthyO ev = true →
        (pollLoop env p tid fuel elapsed tabN readyN extN).res = .ok ev ∧
        (pollLoop env p tid fuel elapsed tabN readyN extN).dReady = k + 1 ∧
        (pollLoop env p tid fuel elapsed tabN readyN extN).dExt = 1 := by
  intro k
  induction k with
  | zero =>
    intro fuel elapsed tabN readyN extN hg hfuel htabs hfalsy htruthy ev he het
    obtain ⟨l, tab, ht, hf, htr, hw⟩ := htabs 0 (Nat.le_refl 0)
    obtain ⟨rv, hr, hrt⟩ := htruthy
    obtain ⟨f, rfl⟩ : ∃ f, fuel = f + 1 := ⟨fuel - 1, by omega⟩
    rw [pollLoop_step_success env p tid f elapsed tabN readyN extN l tab
      (by omega) ht hf htr hw hrc rv hr hrt ev he het]
    exact ⟨rfl, rfl, rfl⟩
  | succ n ihn =>
    intro fuel elapsed tabN readyN extN hg hfuel htabs hfalsy htruthy ev he het
    obtain ⟨l, tab, ht, hf, htr, hw⟩ := htabs 0 (Nat.zero_le _)
    obtain ⟨rv, hr, hrt⟩ := hfalsy 0 (Nat.succ_pos n)
    obtain ⟨f, rfl⟩ : ∃ f, fuel = f + 1 := ⟨fuel - 1, by omega⟩
    rw [pollLoop_step_notReady env p tid f elapsed tabN readyN extN l tab
      (by omega) ht hf htr hw hrc rv hr hrt]
    have IH := ihn f (elapsed + 2) (tabN + 1) (readyN + 1) extN
      (by omega) (by omega)
      (fun i hi => by
        have h2 := htabs (i + 1) (by omega)
        rwa [show tabN + (i + 1) = tabN + 1 + i by omega] at h2)
      (fun i hi => by
        have h2 := hfalsy (i + 1) (by omega)
        rwa [show readyN + (i + 1) = readyN + 1 + i by omega] at h2)
      (by
        have h2 := htruthy
        rwa [show readyN + (n + 1) = readyN + 1 + n by omega] at h2)
      ev he het
    obtain ⟨ih1, ih2, ih3⟩ := IH
    refine ⟨by simpa using ih1, by simp; omega, by simpa using ih3⟩

/-- C4: for k within the poll budget, if the readiness predicate is falsy
on the first k polls, truthy on poll k + 1, and the extraction query is
truthy on its first attempt, exactly k + 1 readiness evaluations and
exactly one extraction evaluation occur. -/
theorem c4_ready_then_extract (env : PollEnv) (p : Params) (tid : Value)
    (k : Nat) (hrc : p.hasReadyCheck = true)
    (hbudget : p.waitSecs + 2 * k < p.maxWait)
    (hc : createTab env.create = .ok tid)
    (htabs : ∀ i, i ≤ k → goodTabAt env tid i)
    (hfalsy : ∀ i, i < k →
      ∃ rv, evaluate (env.ready i) = .ok rv ∧ truthyO rv = false)
    (htruthy : ∃ rv, evaluate (env.ready k) = .ok rv ∧ truthyO rv = true)
    (ev : Option Value) (he : evaluate (env.extractQ 0) = .ok ev)
    (het : truthyO ev = true) :
    (openAndExtract env p).readyCalls = k + 1 ∧
    (openAndExtract env p).extCalls = 1 := by
  have H := pollLoop_ready_counts env p tid hrc k (p.maxWait + 1)
    p.waitSecs 0 0 0 hbudget (by omega)
    (fun i hi => by rw [Nat.zero_add]; exact htabs i hi)
    (fun i hi => by rw [Nat.zero_add]; exact hfalsy i hi)
    (by rw [Nat.zero_add]; exact htruthy) ev he het
  have hb1 : (pollBody env p tid).dReady = k + 1 := H.2.1
  have hb2 : (pollBody env p tid).dExt = 1 := H.2.2
  constructor <;> simp [openAndExtract, hc, hb1, hb2]

/-- An environment whose readiness predicate answers false on the first
poll and true from the second poll on. -/
def envReadyLate : PollEnv :=
  { envBase with
      ready := fun i =>
        if i = 0 then evalRet (.bool false) else evalRet (.bool true) }

theorem c4_ready_then_extract_witness :
    (openAndExtract envReadyLate cp12).readyCalls = 2 ∧
    (openAndExtract envReadyLate cp12).extCalls = 1 := by
  have h := c4_ready_then_extract envReadyLate cp12 (.str "T") 1 rfl
    (by decide) rfl
    (fun i _ => ⟨[tabObj "T"], tabObj "T", rfl, rfl, rfl, rfl⟩)
    (fun i hi => by
      have hz : i = 0 := by omega
      subst hz
      exact ⟨some (.bool false), rfl, rfl⟩)
    ⟨some (.bool true), rfl, rfl⟩
    (some (.str "[]")) rfl rfl
  exact h

/-- Every tab fetch succeeds, and any listed descriptor of the target
carries a page WebSocket URL. -/
def goodTabs (env : PollEnv) (tid : Value) : Prop :=
  ∀ i, (∃ l, env.tabs i = .ok l) ∧
    ∀ l t, env.tabs i = .ok l → findTab l tid = some t →
      (vget t "webSocketDebuggerUrl").isSome = true

/-- Absorption lemma behind C8: when no connection-level failure occurs
(evaluate calls may time out but always connect, tab fetches succeed and
listed targets carry their URL), the loop never raises: its outcome is
some returned value or None. -/
theorem pollLoop_no_hard_error (env : PollEnv) (p : Params) (tid : Value)
    (hready : ∀ i, (env.ready i).conn = none)
    (hext : ∀ i, (env.extractQ i).conn = none)
    (htabs : goodTabs env tid) :
    ∀ fuel elapsed tabN readyN extN,
      ∃ r, (pollLoop env p tid fuel elapsed tabN readyN extN).res = .ok r := by
  intro fuel
  induction fuel with
  | zero => intro elapsed tabN readyN extN; exact ⟨none, rfl⟩
  | succ f ih =>
    intro elapsed tabN readyN extN
    by_cases hg : elapsed < p.maxWait
    case neg => exact ⟨none, by simp [pollLoop, hg]⟩
    obtain ⟨l, hl⟩ := (htabs tabN).1
    have hre : evaluate (env.ready readyN) =
        .ok (evalRecvLoop (env.ready readyN).msgs) := by
      simp [evaluate, hready readyN]
    have hee : evaluate (env.extractQ extN) =
        .ok (evalRecvLoop (env.extractQ extN).msgs) := by
      simp [evaluate, hext extN]
    cases hft : findTab l tid with
    | none => exact ⟨none, by simp [pollLoop, hg, hl, hft]⟩
    | some t =>
      have hw := (htabs tabN).2 l t hl hft
      obtain ⟨u, hu⟩ := Option.isSome_iff_exists.mp hw
      cases htr : truthyV t with
      | false => exact ⟨none, by simp [pollLoop, hg, hl, hft, htr]⟩
      | true =>
        cases hrc : p.hasReadyCheck with
        | true =>
          cases hrt : truthyO (evalRecvLoop (env.ready readyN).msgs) with
          | false =>
            obtain ⟨r, hr⟩ := ih (elapsed + 2) (tabN + 1) (readyN + 1) extN
            exact ⟨r,
              by simp [pollLoop, hg, hl, hft, htr, hu, hrc, hre, hrt, hr]⟩
          | true =>
            cases het : truthyO (evalRecvLoop (env.extractQ extN).msgs) with
            | true =>
              exact ⟨evalRecvLoop (env.extractQ extN).msgs,
                by simp [pollLoop, hg, hl, hft, htr, hu, hrc, hre, hrt,
                  hee, het]⟩
            | false =>
              obtain ⟨r, hr⟩ :=
                ih (elapsed + 2) (tabN + 1) (readyN + 1) (extN + 1)
              exact ⟨r, by simp [pollLoop, hg, hl, hft, htr, hu, hrc, hre,
                hrt, hee, het, hr]⟩
        | false =>
          cases het : truthyO (evalRecvLoop (env.extractQ extN).msgs) with
          | true =>
            exact ⟨evalRecvLoop (env.extractQ extN).msgs,
              by simp [pollLoop, hg, hl, hft, htr, hu, hrc, hee, het]⟩
          | false =>
            obtain ⟨r, hr⟩ := ih (elapsed + 2) (tabN + 1) readyN (extN + 1)
            exact ⟨r,
              by simp [pollLoop, hg, hl, hft, htr, hu, hrc, hee, het, hr]⟩

/-- C8 amended: evaluate-level response timeouts during readiness or
extraction are absorbed by the poller and the caller sees a plain
success-or-empty outcome, provided no connection-level failure occurs
anywhere (evaluate connects, every tab fetch succeeds, the listed target
carries its URL, creation succeeds and close completes); the
counterexample shows a tab-fetch failure escaping as a hard error. -/
theorem c8_amended (env : PollEnv) (p : Params) (tid : Value)
    (hc : createTab env.create = .ok tid)
    (hready : ∀ i, (env.ready i).conn = none)
    (hext : ∀ i, (env.extractQ i).conn = none)
    (htabs : goodTabs env tid)
    (hclose : closeTab env.close = .ok ()) :
    ∃ r, (openAndExtract env p).res = .ok r := by
  obtain ⟨r, hr⟩ := pollLoop_no_hard_error env p tid hready hext htabs
    (p.maxWait + 1) p.waitSecs 0 0 0
  exact ⟨r, by simp [openAndExtract, hc, hclose, pollBody, hr]⟩

theorem c8_amended_witness :
    ∃ r, (openAndExtract envBase cp12).res = .ok r := by
  apply c8_amended envBase cp12 (.str "T") rfl (fun _ => rfl) (fun _ => rfl)
    ?_ rfl
  intro i
  refine ⟨⟨[tabObj "T"], rfl⟩, ?_⟩
  intro l t hl hft
  injection hl with h1
  subst h1
  have hconc : findTab [tabObj "T"] (.str "T") = some (tabObj "T") := rfl
  rw [hconc] at hft
  injection hft with h2
  subst h2
  rfl

/-- An environment whose tab-list fetch raises an HTTP error. -/
def envTabsFail : PollEnv :=
  { envBase with tabs := fun _ => .error .httpError }

/-- C8 counterexample: a target-list fetch failure inside the poll loop
is NOT absorbed: it propagates out of open_and_extract as a hard error
(after the cleanup call), not as a binary success-or-empty outcome. -/
theorem c8_counterexample :
    (openAndExtract envTabsFail cp12).res = .error .httpError ∧
    (openAndExtract envTabsFail cp12).closeCalls = 1 :=
  ⟨rfl, rfl⟩

/-- Total duration of the tab-list fetches with indices t, t+1, ...,
t+n-1. -/
def tabsSum (env : PollEnv) : Nat → Nat → Nat
  | _, 0 => 0
  | t, n + 1 => env.tabsDur t + tabsSum env (t + 1) n

/-- Time bounds of the poll loop: the sleeps it adds are even and bounded
by the remaining budget plus one, the number of iterations is bounded by
half of that, and its protocol waits are bounded by 15 per iteration
(readiness timeout 5 plus extraction timeout 10) plus the tab-fetch
durations, provided each evaluate wait respects its timeout. -/
theorem pollLoop_time (env : PollEnv) (p : Params) (tid : Value)
    (hr5 : ∀ i, (env.ready i).dur ≤ 5)
    (he10 : ∀ i, (env.extractQ i).dur ≤ 10) :
    ∀ fuel elapsed tabN readyN extN,
      (pollLoop env p tid fuel elapsed tabN readyN extN).dSleep % 2 = 0 ∧
      (pollLoop env p tid fuel elapsed tabN readyN extN).dSleep ≤
        p.maxWait - elapsed + 1 ∧
      2 * (pollLoop env p tid fuel elapsed tabN readyN extN).dTab ≤
        p.maxWait - elapsed + 1 ∧
      (pollLoop env p tid fuel elapsed tabN readyN extN).dProto ≤
        15 * (pollLoop env p tid fuel elapsed tabN readyN extN).dTab +
          tabsSum env tabN
            (pollLoop env p tid fuel elapsed tabN readyN extN).dTab := by
  intro fuel
  induction fuel with
  | zero =>
    intro elapsed tabN readyN extN
    simp [pollLoop, tabsSum]
  | succ f ih =>
    intro elapsed tabN readyN extN
    have hA := hr5 readyN
    have hB := he10 extN
    have H1 := ih (elapsed + 2) (tabN + 1) (readyN + 1) (extN + 1)
    have H2 := ih (elapsed + 2) (tabN + 1) (readyN + 1) extN
    have H3 := ih (elapsed + 2) (tabN + 1) readyN (extN + 1)
    rw [pollLoop]
    split
    · repeat' split
      all_goals simp [tabsSum]
      all_goals omega
    · simp [tabsSum]

/-- C9 amended: for every run, the wall-clock time (sleeps plus protocol
waits) is bounded by initialWait + maxWait + 1, plus 15 time units
(readiness timeout 5 and extraction timeout 10) per poll iteration, plus
the durations of the tab-list fetches, of creation and of closing; and
the number of poll iterations is at most (maxWait + 1) / 2.  The claimed
bound of a single evaluate timeout fails because every iteration may wait
on evaluate timeouts without advancing elapsed. -/
theorem c9_amended (env : PollEnv) (p : Params)
    (hr5 : ∀ i, (env.ready i).dur ≤ 5)
    (he10 : ∀ i, (env.extractQ i).dur ≤ 10) :
    (openAndExtract env p).sleepT + (openAndExtract env p).protoT ≤
      p.waitSecs + p.maxWait + 1 +
        15 * (openAndExtract env p).tabCalls +
        tabsSum env 0 (openAndExtract env p).tabCalls +
        env.create.dur + env.close.dur ∧
    2 * (openAndExtract env p).tabCalls ≤ p.maxWait + 1 := by
  cases hc : createTab env.create with
  | error e =>
    simp [openAndExtract, hc, tabsSum]
    omega
  | ok tid =>
    obtain ⟨h1, h2, h3, h4⟩ := pollLoop_time env p tid hr5 he10
      (p.maxWait + 1) p.waitSecs 0 0 0
    have e1 : (openAndExtract env p).sleepT =
        p.waitSecs + (pollBody env p tid).dSleep := by
      simp [openAndExtract, hc]
    have e2 : (openAndExtract env p).protoT =
        env.create.dur + (pollBody env p tid).dProto + env.close.dur := by
      simp [openAndExtract, hc]
    have e3 : (openAndExtract env p).tabCalls =
        (pollBody env p tid).dTab := by
      simp [openAndExtract, hc]
    rw [e1, e2, e3]
    have h2b : (pollBody env p tid).dSleep ≤ p.maxWait - p.waitSecs + 1 := h2
    have h3b : 2 * (pollBody env p tid).dTab ≤
        p.maxWait - p.waitSecs + 1 := h3
    have h4b : (pollBody env p tid).dProto ≤
        15 * (pollBody env p tid).dTab +
          tabsSum env 0 (pollBody env p tid).dTab := h4
    constructor <;> omega

theorem c9_amended_witness :
    ((openAndExtract envBase cp12).sleepT +
        (openAndExtract envBase cp12).protoT ≤
      cp12.waitSecs + cp12.maxWait + 1 +
        15 * (openAndExtract envBase cp12).tabCalls +
        tabsSum envBase 0 (openAndExtract envBase cp12).tabCalls +
        envBase.create.dur + envBase.close.dur) ∧
    2 * (openAndExtract envBase cp12).tabCalls ≤ cp12.maxWait + 1 :=
  c9_amended envBase cp12 (fun _ => Nat.zero_le 5) (fun _ => Nat.zero_le 10)

/-- An environment whose readiness evaluation times out (taking its full
5-unit timeout) on every poll. -/
def envSlowReady : PollEnv :=
  { envBase with ready := fun _ => evalTimedOut 5 }

/-- C9 counterexample: a non-succeeding run in which every readiness
evaluation waits out its 5-unit timeout spends 32 time units of
wall-clock (12 sleeping and 20 waiting on protocol responses), exceeding
initialWait + maxWait + one 10-unit evaluate timeout = 26. -/
theorem c9_counterexample :
    (openAndExtract envSlowReady cp12).res = .ok none ∧
    (openAndExtract envSlowReady cp12).sleepT +
      (openAndExtract envSlowReady cp12).protoT = 32 ∧
    ¬((openAndExtract envSlowReady cp12).sleepT +
        (openAndExtract envSlowReady cp12).protoT ≤
      cp12.waitSecs + cp12.maxWait + 10) :=
  ⟨rfl, rfl, by decide⟩

end Qianli
